import Mathlib

/-!
# Basic OpenGL with GLFW: shaders

A shallow embedding of `Shader.h` (class `Shader`: constructor and `Use`) and of
`main.cpp` (`main`).  The program is a straight sequence of calls into the C++
stream library, GLFW, GLEW and the OpenGL driver.  Those libraries are not part
of the repository, so every value they hand back (handles, status words, info
logs, file contents, the window-close flag) is a field of an explicit
environment, and the program is a function from that environment to the trace
of calls it makes and lines it prints, in program order.
-/

namespace BasicOpenGLShaders

set_option linter.dupNamespace false

/-! ## The stream library, as far as `Shader.h` uses it -/

/-- The three error flags of `std::ios_base::iostate`. `goodbit` is no flag set. -/
structure IoState where
  eofbit : Bool
  failbit : Bool
  badbit : Bool
deriving DecidableEq, Repr

namespace IoState

def goodbit : IoState := ⟨false, false, false⟩
def failbit_ : IoState := ⟨false, true, false⟩
def badbit_ : IoState := ⟨false, false, true⟩

/-- Bitwise or of two flag sets. -/
def or (a b : IoState) : IoState :=
  ⟨a.eofbit || b.eofbit, a.failbit || b.failbit, a.badbit || b.badbit⟩

/-- Whether two flag sets share a flag (`(a & b) != 0`). -/
def meets (a b : IoState) : Bool :=
  (a.eofbit && b.eofbit) || (a.failbit && b.failbit) || (a.badbit && b.badbit)

end IoState

/-- The exception `std::ifstream::failure`. -/
inductive IosFailure where
  | failure
deriving DecidableEq, Repr

/-- An `std::ifstream` as the constructor sees it: its error state and the mask
set by `exceptions(...)`. -/
structure IfStream where
  state : IoState
  exceptions : IoState
deriving DecidableEq, Repr

/-- The call `setstate(bits)`: the flags are added to the state, and
`ios_base::failure` is thrown when the new state shares a flag with the
exception mask. -/
def IfStream.setstate (s : IfStream) (bits : IoState) : Except IosFailure IfStream :=
  let s1 : IfStream := { s with state := s.state.or bits }
  if s1.state.meets s1.exceptions then Except.error IosFailure.failure else Except.ok s1

/-- What the file system does with one path.  `open` calls `setstate(openBits)`
(`goodbit` when the file opens, `failbit` when it cannot be opened), the file
buffer delivers `bytes` to `operator<<`, and `close` calls
`setstate(closeBits)`. -/
structure FileOutcome where
  openBits : IoState
  bytes : List Nat
  closeBits : IoState
deriving DecidableEq, Repr

/-- A file that opens, is read to the end and closes. -/
def FileOutcome.readable (content : List Nat) : FileOutcome :=
  ⟨IoState.goodbit, content, IoState.goodbit⟩

/-- A path that cannot be opened: `open` sets `failbit`, the unopened buffer
delivers nothing, and `close` on the unopened file sets `failbit` again. -/
def FileOutcome.cannotOpen : FileOutcome :=
  ⟨IoState.failbit_, [], IoState.failbit_⟩

/-- The buffer `std::string::c_str()` points to: the characters and a NUL. -/
def c_str (s : List Nat) : List Nat := s ++ [0]

/-- The characters of a NUL-terminated string starting at a buffer: everything
before the first NUL.  This is what a reader given a `const GLchar*` and no
length sees, and what `std::cout << infoLog` prints. -/
def readCString (buffer : List Nat) : List Nat := buffer.takeWhile (fun c => c != 0)

/-! ## The driver -/

inductive ShaderType where
  | GL_VERTEX_SHADER
  | GL_FRAGMENT_SHADER
deriving DecidableEq, Repr

inductive StatusName where
  | GL_COMPILE_STATUS
  | GL_LINK_STATUS
deriving DecidableEq, Repr

/-- The string literals the program prints. -/
inductive Message where
  | fileNotRead
  | vertexCompilationFailed
  | fragmentCompilationFailed
  | programLinkingFailed
  | windowFailed
  | glewFailed
deriving DecidableEq, Repr

def Message.literal : Message → String
  | .fileNotRead => "ERROR::SHADER::FILE_NOT_SUCCESFULLY_READ"
  | .vertexCompilationFailed => "ERROR::SHADER::VERTEX::COMPILATION_FAILED\n"
  | .fragmentCompilationFailed => "ERROR::SHADER::FRAGMENT::COMPILATION_FAILED\n"
  | .programLinkingFailed => "ERROR::SHADER::PROGRAM::LINKING_FAILED\n"
  | .windowFailed => "Failed to create GLFW window"
  | .glewFailed => "Failed to initialize GLEW"

/-- The source text the driver takes from the one string of a
`glShaderSource(shader, 1, &string, length)` call: with a null `length` (here
`none`) or a negative length the string is taken as NUL-terminated, otherwise
the given number of characters is taken. -/
def sourceText (string : List Nat) (length : Option Int) : List Nat :=
  match length with
  | none => readCString string
  | some n => if n < 0 then readCString string else string.take n.toNat

/-- What the driver answers to the calls of one run of the constructor, in the
order the constructor asks: the names returned by `glCreateShader` and
`glCreateProgram`, the words stored into `success` by `glGetShaderiv` and
`glGetProgramiv`, and the info log the driver holds for each object at the
moment it is asked for. -/
structure DriverReplies where
  vertexShader : Nat
  vertexStatus : Int
  vertexLog : List Nat
  fragmentShader : Nat
  fragmentStatus : Int
  fragmentLog : List Nat
  program : Nat
  linkStatus : Int
  programLog : List Nat
deriving DecidableEq, Repr

/-- What `glGetShaderInfoLog` / `glGetProgramInfoLog` leave in the caller's
buffer: at most `bufSize - 1` characters of the log, then a NUL; the rest of the
buffer keeps what it held. -/
def storeInfoLog (bufSize : Nat) (log buffer : List Nat) : List Nat :=
  if bufSize = 0 then buffer
  else (log.take (bufSize - 1) ++ [0]) ++ buffer.drop ((log.take (bufSize - 1) ++ [0]).length)

/-- One observable step of the program: a library call with the arguments
passed (and, for calls that hand something back, what came back), or one
`std::cout << ... << std::endl` statement.  Arguments that are fixed enumerators
of the libraries (buffer targets, draw mode, usage hint, window hint names and
values, clear colour) are left out. -/
inductive Event where
  | glCreateShader (type : ShaderType) (returned : Nat)
  | glShaderSource (shader count : Nat) (string : List Nat) (length : Option Int)
  | glCompileShader (shader : Nat)
  | glGetShaderiv (shader : Nat) (pname : StatusName) (stored : Int)
  | glGetShaderInfoLog (shader bufSize : Nat)
  | glCreateProgram (returned : Nat)
  | glAttachShader (program shader : Nat)
  | glLinkProgram (program : Nat)
  | glGetProgramiv (program : Nat) (pname : StatusName) (stored : Int)
  | glGetProgramInfoLog (program bufSize : Nat)
  | glDeleteShader (shader : Nat)
  | glDeleteProgram (program : Nat)
  | glUseProgram (program : Nat)
  | coutLine (literal : Message)
  | coutLog (literal : Message) (infoLog : List Nat)
  | glfwInit
  | glfwWindowHint
  | glfwCreateWindow (width height : Int) (returned : Option Nat)
  | glfwGetFramebufferSize (window : Option Nat)
  | glfwTerminate
  | glfwMakeContextCurrent (window : Nat)
  | glewInit (returned : Nat)
  | glViewport (x y width height : Int)
  | glGenVertexArrays (n returned : Nat)
  | glGenBuffers (n returned : Nat)
  | glBindVertexArray (array : Nat)
  | glBindBuffer (buffer : Nat)
  | glBufferData (size : Nat)
  | glVertexAttribPointer (index size stride pointer : Nat)
  | glEnableVertexAttribArray (index : Nat)
  | glfwWindowShouldClose (window : Nat) (returned : Bool)
  | glfwPollEvents
  | glClearColor
  | glClear
  | glDrawArrays (first count : Nat)
  | glfwSwapBuffers (window : Nat)
  | glDeleteVertexArrays (n array : Nat)
  | glDeleteBuffers (n buffer : Nat)
deriving DecidableEq, Repr

/-! ## `Shader.h` -/

/-- The class `Shader`: its one data member. -/
structure Shader where
  shaderProgram : Nat
deriving DecidableEq, Repr

/-- The body of the `try` block (lines 31 to 42): both files are opened, both
buffers are copied into string streams, both files are closed, and only then are
`vertexCode` and `fragmentCode` assigned.  Both streams have the exception mask
`badbit` (lines 26 and 27); the two string streams keep the default mask, so
`operator<<` throws nothing here.  The result is the pair of strings assigned, or
the exception that left the block before any assignment. -/
def readShaderFiles (fs : String → FileOutcome) (vertexPath fragmentPath : String) :
    Except IosFailure (List Nat × List Nat) := do
  let vShaderFile : IfStream := ⟨IoState.goodbit, IoState.badbit_⟩
  let fShaderFile : IfStream := ⟨IoState.goodbit, IoState.badbit_⟩
  let vShaderFile ← vShaderFile.setstate (fs vertexPath).openBits
  let fShaderFile ← fShaderFile.setstate (fs fragmentPath).openBits
  let vShaderStream := (fs vertexPath).bytes
  let fShaderStream := (fs fragmentPath).bytes
  let _ ← vShaderFile.setstate (fs vertexPath).closeBits
  let _ ← fShaderFile.setstate (fs fragmentPath).closeBits
  pure (vShaderStream, fShaderStream)

/-- Lines 21 to 50: the two strings the constructor goes on with and what the
`catch` block printed.  When the exception is caught both strings are still
empty. -/
def loadSources (fs : String → FileOutcome) (vertexPath fragmentPath : String) :
    (List Nat × List Nat) × List Event :=
  match readShaderFiles fs vertexPath fragmentPath with
  | Except.ok codes => (codes, [])
  | Except.error _ => (([], []), [Event.coutLine Message.fileNotRead])

/-- Lines 84 to 94, 105 to 109 and 129 to 136: the branch taken after a status
query.  When `success` is zero the log is fetched into `infoLog` with a buffer
size of 512 and printed after the header; otherwise nothing happens.  The result
is the new content of `infoLog` and the events. -/
def reportFailure (success : Int) (fetch : Event) (header : Message) (log infoLog : List Nat) :
    List Nat × List Event :=
  if success = 0 then
    (storeInfoLog 512 log infoLog,
      [fetch, Event.coutLog header (readCString (storeInfoLog 512 log infoLog))])
  else (infoLog, [])

/-- The constructor `Shader::Shader(vertexPath, fragmentPath)`.  `fs` is the file
system, `gl` the driver's answers and `infoLog0` the indeterminate initial
content of the local array `infoLog`.  The result is the constructed object and
the trace. -/
def Shader.Shader (fs : String → FileOutcome) (gl : DriverReplies) (infoLog0 : List Nat)
    (vertexPath fragmentPath : String) : Shader × List Event :=
  let loaded := loadSources fs vertexPath fragmentPath
  let vertexCode := loaded.1.1
  let fragmentCode := loaded.1.2
  let vertexShaderCode := c_str vertexCode
  let fragmentShaderCode := c_str fragmentCode
  -- Vertex Shader
  let vertexShader := gl.vertexShader
  let vertexEvents :=
    [Event.glCreateShader ShaderType.GL_VERTEX_SHADER vertexShader,
     Event.glShaderSource vertexShader 1 vertexShaderCode none,
     Event.glCompileShader vertexShader,
     Event.glGetShaderiv vertexShader StatusName.GL_COMPILE_STATUS gl.vertexStatus]
  let vertexReport := reportFailure gl.vertexStatus (Event.glGetShaderInfoLog vertexShader 512)
    Message.vertexCompilationFailed gl.vertexLog infoLog0
  -- Fragment Shader
  let fragmentShader := gl.fragmentShader
  let fragmentEvents :=
    [Event.glCreateShader ShaderType.GL_FRAGMENT_SHADER fragmentShader,
     Event.glShaderSource fragmentShader 1 fragmentShaderCode none,
     Event.glCompileShader fragmentShader,
     Event.glGetShaderiv fragmentShader StatusName.GL_COMPILE_STATUS gl.fragmentStatus]
  let fragmentReport := reportFailure gl.fragmentStatus
    (Event.glGetShaderInfoLog fragmentShader 512)
    Message.fragmentCompilationFailed gl.fragmentLog vertexReport.1
  -- Shader Program, Linking the shaders
  let shaderProgram := gl.program
  let linkEvents :=
    [Event.glCreateProgram shaderProgram,
     Event.glAttachShader shaderProgram vertexShader,
     Event.glAttachShader shaderProgram fragmentShader,
     Event.glLinkProgram shaderProgram,
     Event.glGetProgramiv shaderProgram StatusName.GL_LINK_STATUS gl.linkStatus]
  let linkReport := reportFailure gl.linkStatus (Event.glGetProgramInfoLog shaderProgram 512)
    Message.programLinkingFailed gl.programLog fragmentReport.1
  let deleteEvents := [Event.glDeleteShader vertexShader, Event.glDeleteShader fragmentShader]
  (⟨shaderProgram⟩,
    loaded.2 ++ vertexEvents ++ vertexReport.2 ++ fragmentEvents ++ fragmentReport.2
      ++ linkEvents ++ linkReport.2 ++ deleteEvents)

/-- The method `Shader::Use()`: one `glUseProgram` on the stored handle. -/
def Shader.Use (self : BasicOpenGLShaders.Shader) : List Event :=
  [Event.glUseProgram self.shaderProgram]


/-! ## `main.cpp` -/

def WIDTH : Int := 800
def HEIGHT : Int := 600

/-- The macro `GLEW_OK` of `GL/glew.h`. -/
def GLEW_OK : Nat := 0

/-- The macros `EXIT_SUCCESS` and `EXIT_FAILURE` of `cstdlib`. -/
def EXIT_SUCCESS : Nat := 0
def EXIT_FAILURE : Nat := 1

/-- The value of `sizeof(GLfloat)`. -/
def sizeofGLfloat : Nat := 4

/-- The array `vertices` of `main` (lines 103 to 109). -/
def vertices : List Rat :=
  [-0.5, -0.5, 0.0, 1.0, 0.0, 0.0,
   0.5, -0.5, 0.0, 0.0, 1.0, 0.0,
   0.0, 0.5, 0.0, 0.0, 0.0, 1.0]

/-- Everything outside the program that one run of `main` depends on: what
`glfwCreateWindow` returns (`none` is the null pointer), the size stored by
`glfwGetFramebufferSize`, what `glewInit` returns, the file system, the
driver's answers to the shader constructor, the initial content of its
`infoLog` array, the names generated for the vertex array and the buffer, and
what the k-th call of `glfwWindowShouldClose` returns. -/
structure World where
  window : Option Nat
  screenWidth : Int
  screenHeight : Int
  glewInitResult : Nat
  fs : String → FileOutcome
  gl : DriverReplies
  infoLog0 : List Nat
  VAO : Nat
  VBO : Nat
  shouldClose : Nat → Bool

/-- The body of one pass of the frame loop (lines 209 to 237). -/
def frame (window VAO : Nat) (ourShader : Shader) : List Event :=
  [Event.glfwPollEvents, Event.glClearColor, Event.glClear]
    ++ ourShader.Use
    ++ [Event.glBindVertexArray VAO, Event.glDrawArrays 0 3, Event.glBindVertexArray 0,
        Event.glfwSwapBuffers window]

/-- The loop `while (!glfwWindowShouldClose(window))` of lines 206 to 238, from
its k-th test on.  The loop has no bound of its own, so the embedding takes a
bound on the number of tests and yields `none` when it is used up. -/
def frameLoop (w : World) (window : Nat) (ourShader : Shader) : Nat → Nat → Option (List Event)
  | 0, _ => none
  | fuel + 1, k =>
    if w.shouldClose k then some [Event.glfwWindowShouldClose window true]
    else
      match frameLoop w window ourShader fuel (k + 1) with
      | none => none
      | some rest =>
        some (Event.glfwWindowShouldClose window false :: frame window w.VAO ourShader ++ rest)

/-- Lines 26 to 61: GLFW is initialised, the five window hints are set, the
window is created and its framebuffer size is queried (before the null check of
line 64). -/
def startup (w : World) : List Event :=
  [Event.glfwInit, Event.glfwWindowHint, Event.glfwWindowHint, Event.glfwWindowHint,
   Event.glfwWindowHint, Event.glfwWindowHint,
   Event.glfwCreateWindow WIDTH HEIGHT w.window,
   Event.glfwGetFramebufferSize w.window]

/-- Lines 134 to 202: the vertex array and the buffer are generated and bound, the
vertex data is uploaded, the two attributes are described and enabled, and both
bindings are dropped. -/
def setupGeometry (w : World) : List Event :=
  [Event.glGenVertexArrays 1 w.VAO, Event.glGenBuffers 1 w.VBO,
   Event.glBindVertexArray w.VAO, Event.glBindBuffer w.VBO,
   Event.glBufferData (vertices.length * sizeofGLfloat),
   Event.glVertexAttribPointer 0 3 (6 * sizeofGLfloat) 0,
   Event.glEnableVertexAttribArray 0,
   Event.glVertexAttribPointer 1 3 (6 * sizeofGLfloat) (3 * sizeofGLfloat),
   Event.glEnableVertexAttribArray 1,
   Event.glBindBuffer 0, Event.glBindVertexArray 0]

/-- The function `main`.  The result is the exit code and the trace, or `none`
when the bound on the number of loop tests is used up before the window-close
flag is seen set. -/
def main (w : World) (fuel : Nat) : Option (Nat × List Event) :=
  match w.window with
  | none =>
    some (EXIT_FAILURE,
      startup w ++ [Event.coutLine Message.windowFailed, Event.glfwTerminate])
  | some window =>
    if GLEW_OK ≠ w.glewInitResult then
      some (EXIT_FAILURE,
        startup w ++ [Event.glfwMakeContextCurrent window, Event.glewInit w.glewInitResult,
          Event.coutLine Message.glewFailed])
    else
      let built := Shader.Shader w.fs w.gl w.infoLog0 "core.vs" "core.frag"
      let ourShader := built.1
      match frameLoop w window ourShader fuel 0 with
      | none => none
      | some loop =>
        some (EXIT_SUCCESS,
          startup w ++ [Event.glfwMakeContextCurrent window, Event.glewInit w.glewInitResult,
            Event.glViewport 0 0 w.screenWidth w.screenHeight]
            ++ built.2 ++ setupGeometry w ++ loop
            ++ [Event.glDeleteVertexArrays 1 w.VAO, Event.glDeleteBuffers 1 w.VBO,
                Event.glfwTerminate])

/-! ## Observations on a trace -/

/-- The events that belong to building a shader program. -/
def Event.isShaderBuild : Event → Bool
  | .glCreateShader _ _ => true
  | .glShaderSource _ _ _ _ => true
  | .glCompileShader _ => true
  | .glGetShaderiv _ _ _ => true
  | .glGetShaderInfoLog _ _ => true
  | .glCreateProgram _ => true
  | .glAttachShader _ _ => true
  | .glLinkProgram _ => true
  | .glGetProgramiv _ _ _ => true
  | .glGetProgramInfoLog _ _ => true
  | .glDeleteShader _ => true
  | _ => false

def Event.isDraw : Event → Bool
  | .glDrawArrays _ _ => true
  | _ => false

/-- The events that release a shader or a program object. -/
def Event.isRelease : Event → Bool
  | .glDeleteShader _ => true
  | .glDeleteProgram _ => true
  | _ => false

/-- The events that write to the standard output. -/
def Event.isOutput : Event → Bool
  | .coutLine _ => true
  | .coutLog _ _ => true
  | _ => false

/-- The output statements of a trace, in order. -/
def output (trace : List Event) : List Event := trace.filter Event.isOutput

/-- The log texts printed after a given header, in order. -/
def logsAfter (header : Message) : List Event → List (List Nat)
  | [] => []
  | Event.coutLog h text :: rest =>
    if h = header then text :: logsAfter header rest else logsAfter header rest
  | _ :: rest => logsAfter header rest

/-- The source texts submitted to the driver, each with the shader it was
submitted for, in order. -/
def submittedSources : List Event → List (Nat × List Nat)
  | [] => []
  | Event.glShaderSource shader _ string length :: rest =>
    (shader, sourceText string length) :: submittedSources rest
  | _ :: rest => submittedSources rest

/-- The calls that make up the build itself: creating and compiling a stage,
creating the program, attaching and linking. -/
def Event.isBuildStep : Event → Bool
  | .glCreateShader _ _ => true
  | .glCompileShader _ => true
  | .glCreateProgram _ => true
  | .glAttachShader _ _ => true
  | .glLinkProgram _ => true
  | _ => false

/-- How many output statements of a trace print a given literal. -/
def countMessage (m : Message) (trace : List Event) : Nat :=
  (trace.filter (fun e => e == Event.coutLine m)).length + (logsAfter m trace).length

/-- The buffer sizes passed to the info-log queries of a trace. -/
def requestedSizes : List Event → List Nat
  | [] => []
  | Event.glGetShaderInfoLog _ bufSize :: rest => bufSize :: requestedSizes rest
  | Event.glGetProgramInfoLog _ bufSize :: rest => bufSize :: requestedSizes rest
  | _ :: rest => requestedSizes rest

/-- Every log-printing output statement of a trace, with the event that comes
right before it (`previous` is the event before the start of the trace). -/
def diagnosticsFrom (previous : Option Event) : List Event →
    List (Option Event × Message × List Nat)
  | [] => []
  | Event.coutLog header text :: rest =>
    (previous, header, text) :: diagnosticsFrom (some (Event.coutLog header text)) rest
  | e :: rest => diagnosticsFrom (some e) rest

/-! ## The vertex fetch of a draw call -/

/-- The sizes in bytes of the data stores created by the `glBufferData` calls of
a trace. -/
def uploadedSizes : List Event → List Nat
  | [] => []
  | Event.glBufferData size :: rest => size :: uploadedSizes rest
  | _ :: rest => uploadedSizes rest

/-- The attribute descriptions of a trace: index, number of components, stride
and offset of every `glVertexAttribPointer` call (the component type is
`GL_FLOAT` in both calls of `main`). -/
def attributeLayouts : List Event → List (Nat × Nat × Nat × Nat)
  | [] => []
  | Event.glVertexAttribPointer index size stride pointer :: rest =>
    (index, size, stride, pointer) :: attributeLayouts rest
  | _ :: rest => attributeLayouts rest

/-- The range of vertices, first and count, of every `glDrawArrays` call of a
trace. -/
def drawCalls : List Event → List (Nat × Nat)
  | [] => []
  | Event.glDrawArrays first count :: rest => (first, count) :: drawCalls rest
  | _ :: rest => drawCalls rest

/-- The byte offsets the driver reads from the bound buffer for one attribute of
the vertex number i: `size` floats starting at `stride * i + pointer`, where a
stride of zero stands for tightly packed components. -/
def attributeRead (size stride pointer i : Nat) : List Nat :=
  List.range' ((if stride = 0 then size * sizeofGLfloat else stride) * i + pointer)
    (size * sizeofGLfloat)

/-- All byte offsets read by a draw of `count` vertices from `first` on, vertex by
vertex and within a vertex attribute by attribute. -/
def drawReads (layouts : List (Nat × Nat × Nat × Nat)) (first count : Nat) : List Nat :=
  ((List.range' first count).map (fun i =>
    (layouts.map (fun a => attributeRead a.2.1 a.2.2.1 a.2.2.2 i)).flatten)).flatten

/-! ## Concrete environments -/

/-- Both shader files exist; the text is a stand-in for their content. -/
def bothFiles : String → FileOutcome := fun path =>
  if path = "core.vs" then FileOutcome.readable [118, 101, 114, 116]
  else FileOutcome.readable [102, 114, 97, 103]

/-- The vertex shader file is missing, the fragment shader file exists. -/
def vertexFileMissing : String → FileOutcome := fun path =>
  if path = "core.vs" then FileOutcome.cannotOpen
  else FileOutcome.readable [102, 114, 97, 103]

/-- Both stages compile and the program links. -/
def driverAllGood : DriverReplies := ⟨1, 1, [], 2, 1, [], 3, 1, []⟩

/-- The vertex stage does not compile; the driver has a log of three characters. -/
def driverVertexFails : DriverReplies := ⟨1, 0, [98, 97, 100], 2, 1, [], 3, 0, [110, 111]⟩

/-- The vertex stage does not compile and the driver holds a log of 600
characters, more than the buffer takes. -/
def driverLongLog : DriverReplies := ⟨1, 0, List.replicate 600 65, 2, 1, [], 3, 1, []⟩

/-- Both stages compile, the link fails. -/
def driverLinkFails : DriverReplies := ⟨1, 1, [], 2, 1, [], 3, 0, [110, 111]⟩

/-- The window opens, GLEW initialises and the close flag is set at the third
test of the loop. -/
def worldRuns : World :=
  ⟨some 7, 800, 600, 0, bothFiles, driverAllGood, [], 4, 5, fun k => decide (2 ≤ k)⟩

/-- The window cannot be created. -/
def worldNoWindow : World :=
  ⟨none, 0, 0, 0, bothFiles, driverAllGood, [], 4, 5, fun k => decide (2 ≤ k)⟩

/-- The window opens and GLEW does not initialise. -/
def worldNoGlew : World :=
  ⟨some 7, 800, 600, 1, bothFiles, driverAllGood, [], 4, 5, fun k => decide (2 ≤ k)⟩

/-- The trace of the run of main in which the close flag is set at the third
test, with room for three tests. -/
def worldRunsTrace : List Event := ((main worldRuns 3).getD (EXIT_FAILURE, [])).2

/-! ## Lemmas on the building blocks -/

theorem readCString_append_nul (a rest : List Nat) (h : ∀ c ∈ a, c ≠ 0) :
    readCString (a ++ 0 :: rest) = a := by
  induction a with
  | nil => simp [readCString]
  | cons x xs ih =>
    have hx : x ≠ 0 := h x (by simp)
    have hxs : ∀ c ∈ xs, c ≠ 0 := fun c hc => h c (by simp [hc])
    have := ih hxs
    simp only [readCString] at this ⊢
    simp [List.takeWhile_cons, hx, this]

theorem readCString_nul_terminated (a rest : List Nat) :
    readCString (a ++ 0 :: rest) = readCString a := by
  induction a with
  | nil => simp [readCString]
  | cons x xs ih =>
    simp only [readCString] at ih ⊢
    by_cases hx : x = 0
    · simp [List.takeWhile_cons, hx]
    · simp [List.takeWhile_cons, hx, ih]

theorem readCString_storeInfoLog (log buffer : List Nat) :
    readCString (storeInfoLog 512 log buffer) = readCString (log.take 511) := by
  simp only [storeInfoLog]
  simp only [show (512 : Nat) ≠ 0 by decide, if_false, List.append_assoc, List.singleton_append]
  exact readCString_nul_terminated _ _

theorem reportFailure_events (success : Int) (fetch : Event) (header : Message)
    (log infoLog : List Nat) :
    (reportFailure success fetch header log infoLog).2
      = if success = 0 then [fetch, Event.coutLog header (readCString (log.take 511))]
        else [] := by
  unfold reportFailure
  split <;> simp [readCString_storeInfoLog]

theorem loadSources_events (fs : String → FileOutcome) (vertexPath fragmentPath : String) :
    (loadSources fs vertexPath fragmentPath).2 = []
      ∨ (loadSources fs vertexPath fragmentPath).2 = [Event.coutLine Message.fileNotRead] := by
  unfold loadSources
  split <;> simp

/-- The trace of the constructor, written out. -/
theorem Shader_trace (fs : String → FileOutcome) (gl : DriverReplies) (infoLog0 : List Nat)
    (vertexPath fragmentPath : String) :
    (Shader.Shader fs gl infoLog0 vertexPath fragmentPath).2
      = (loadSources fs vertexPath fragmentPath).2
        ++ [Event.glCreateShader ShaderType.GL_VERTEX_SHADER gl.vertexShader,
            Event.glShaderSource gl.vertexShader 1
              (c_str (loadSources fs vertexPath fragmentPath).1.1) none,
            Event.glCompileShader gl.vertexShader,
            Event.glGetShaderiv gl.vertexShader StatusName.GL_COMPILE_STATUS gl.vertexStatus]
        ++ (if gl.vertexStatus = 0 then
              [Event.glGetShaderInfoLog gl.vertexShader 512,
               Event.coutLog Message.vertexCompilationFailed (readCString (gl.vertexLog.take 511))]
            else [])
        ++ [Event.glCreateShader ShaderType.GL_FRAGMENT_SHADER gl.fragmentShader,
            Event.glShaderSource gl.fragmentShader 1
              (c_str (loadSources fs vertexPath fragmentPath).1.2) none,
            Event.glCompileShader gl.fragmentShader,
            Event.glGetShaderiv gl.fragmentShader StatusName.GL_COMPILE_STATUS gl.fragmentStatus]
        ++ (if gl.fragmentStatus = 0 then
              [Event.glGetShaderInfoLog gl.fragmentShader 512,
               Event.coutLog Message.fragmentCompilationFailed
                 (readCString (gl.fragmentLog.take 511))]
            else [])
        ++ [Event.glCreateProgram gl.program,
            Event.glAttachShader gl.program gl.vertexShader,
            Event.glAttachShader gl.program gl.fragmentShader,
            Event.glLinkProgram gl.program,
            Event.glGetProgramiv gl.program StatusName.GL_LINK_STATUS gl.linkStatus]
        ++ (if gl.linkStatus = 0 then
              [Event.glGetProgramInfoLog gl.program 512,
               Event.coutLog Message.programLinkingFailed (readCString (gl.programLog.take 511))]
            else [])
        ++ [Event.glDeleteShader gl.vertexShader, Event.glDeleteShader gl.fragmentShader] := by
  simp only [Shader.Shader, reportFailure_events]

theorem logsAfter_append (header : Message) (a b : List Event) :
    logsAfter header (a ++ b) = logsAfter header a ++ logsAfter header b := by
  induction a with
  | nil => simp [logsAfter]
  | cons e rest ih =>
    rw [List.cons_append]
    cases e
    case coutLog h text =>
      simp only [logsAfter]
      split <;> simp [ih]
    all_goals simp only [logsAfter, ih]

theorem countMessage_append (m : Message) (a b : List Event) :
    countMessage m (a ++ b) = countMessage m a + countMessage m b := by
  simp only [countMessage, List.filter_append, List.length_append, logsAfter_append]
  omega

theorem requestedSizes_append (a b : List Event) :
    requestedSizes (a ++ b) = requestedSizes a ++ requestedSizes b := by
  induction a with
  | nil => simp [requestedSizes]
  | cons e rest ih =>
    rw [List.cons_append]
    cases e <;> simp [requestedSizes, ih]

theorem readCString_take_bounded (log : List Nat) :
    (readCString (log.take 511)).length ≤ 511 ∧ readCString (log.take 511) <+: log := by
  constructor
  · have h1 : (readCString (log.take 511)).length ≤ (log.take 511).length :=
      (List.takeWhile_sublist _).length_le
    have h2 : (log.take 511).length ≤ 511 := by simp
    omega
  · have h1 : readCString (log.take 511) <+: log.take 511 := List.takeWhile_prefix _
    have h2 : log.take 511 <+: log := List.take_prefix _ _
    exact h1.trans h2

theorem frameLoop_closes (w : World) (window : Nat) (ourShader : Shader) :
    ∀ (n k fuel : Nat), w.shouldClose (k + n) = true →
      (∀ j, j < n → w.shouldClose (k + j) = false) → n < fuel →
      ∃ loop, frameLoop w window ourShader fuel k = some loop
        ∧ (loop.filter Event.isDraw).length = n
        ∧ output loop = [] := by
  intro n
  induction n with
  | zero =>
    intro k fuel hclose _ hfuel
    obtain ⟨f, rfl⟩ : ∃ f, fuel = f + 1 := ⟨fuel - 1, by omega⟩
    refine ⟨[Event.glfwWindowShouldClose window true], ?_, ?_, ?_⟩
    · simp only [Nat.add_zero] at hclose
      simp [frameLoop, hclose]
    · simp [Event.isDraw]
    · simp [output, Event.isOutput]
  | succ n ih =>
    intro k fuel hclose hopen hfuel
    obtain ⟨f, rfl⟩ : ∃ f, fuel = f + 1 := ⟨fuel - 1, by omega⟩
    have h0 : w.shouldClose k = false := by simpa using hopen 0 (by omega)
    have hclose1 : w.shouldClose (k + 1 + n) = true := by
      rw [show k + 1 + n = k + (n + 1) by omega]
      exact hclose
    have hopen1 : ∀ j, j < n → w.shouldClose (k + 1 + j) = false := by
      intro j hj
      rw [show k + 1 + j = k + (j + 1) by omega]
      exact hopen (j + 1) (by omega)
    obtain ⟨rest, hrest, hdraw, hout⟩ := ih (k + 1) f hclose1 hopen1 (by omega)
    refine ⟨Event.glfwWindowShouldClose window false :: frame window w.VAO ourShader ++ rest,
      ?_, ?_, ?_⟩
    · simp [frameLoop, h0, hrest]
    · simp [frame, Shader.Use, Event.isDraw, List.filter_cons, hdraw]
    · simp only [output] at hout ⊢
      simp [frame, Shader.Use, Event.isOutput, List.filter_cons, hout]

theorem frameLoop_never_closes (w : World) (window : Nat) (ourShader : Shader)
    (hopen : ∀ k, w.shouldClose k = false) :
    ∀ (fuel k : Nat), frameLoop w window ourShader fuel k = none := by
  intro fuel
  induction fuel with
  | zero => intro k; rfl
  | succ f ih => intro k; simp [frameLoop, hopen k, ih (k + 1)]

theorem readCString_of_fits (log : List Nat) (hlen : log.length ≤ 511) (hnul : 0 ∉ log) :
    readCString (log.take 511) = log := by
  rw [List.take_of_length_le hlen, ← readCString_nul_terminated log []]
  exact readCString_append_nul log [] (fun c hc h0 => hnul (h0 ▸ hc))

theorem loadSources_readable (fs : String → FileOutcome) (vertexPath fragmentPath : String)
    (vsrc fsrc : List Nat) (hvfile : fs vertexPath = FileOutcome.readable vsrc)
    (hffile : fs fragmentPath = FileOutcome.readable fsrc) :
    loadSources fs vertexPath fragmentPath = ((vsrc, fsrc), []) := by
  simp [loadSources, readShaderFiles, hvfile, hffile, FileOutcome.readable, IfStream.setstate,
    IoState.or, IoState.meets, IoState.goodbit, IoState.badbit_, bind, Except.bind, pure,
    Except.pure]

/-- The `catch` block of line 44 is entered exactly when one of the four `open`
and `close` calls raises `badbit`; `failbit` and `eofbit` never enter it. -/
theorem loadSources_reports_iff_badbit (fs : String → FileOutcome)
    (vertexPath fragmentPath : String) :
    (loadSources fs vertexPath fragmentPath).2
      = if ((fs vertexPath).openBits.badbit || (fs fragmentPath).openBits.badbit
            || (fs vertexPath).closeBits.badbit || (fs fragmentPath).closeBits.badbit) = true
        then [Event.coutLine Message.fileNotRead] else [] := by
  cases h1 : (fs vertexPath).openBits.badbit <;> cases h2 : (fs fragmentPath).openBits.badbit <;>
    cases h3 : (fs vertexPath).closeBits.badbit <;>
    cases h4 : (fs fragmentPath).closeBits.badbit <;>
    simp [loadSources, readShaderFiles, IfStream.setstate, IoState.or, IoState.meets,
      IoState.goodbit, IoState.badbit_, bind, Except.bind, pure, Except.pure, h1, h2, h3, h4]

theorem uploadedSizes_append (a b : List Event) :
    uploadedSizes (a ++ b) = uploadedSizes a ++ uploadedSizes b := by
  induction a with
  | nil => simp [uploadedSizes]
  | cons e rest ih =>
    rw [List.cons_append]
    cases e <;> simp [uploadedSizes, ih]

theorem attributeLayouts_append (a b : List Event) :
    attributeLayouts (a ++ b) = attributeLayouts a ++ attributeLayouts b := by
  induction a with
  | nil => simp [attributeLayouts]
  | cons e rest ih =>
    rw [List.cons_append]
    cases e <;> simp [attributeLayouts, ih]

theorem drawCalls_append (a b : List Event) :
    drawCalls (a ++ b) = drawCalls a ++ drawCalls b := by
  induction a with
  | nil => simp [drawCalls]
  | cons e rest ih =>
    rw [List.cons_append]
    cases e <;> simp [drawCalls, ih]

/-- The constructor uploads no buffer, describes no attribute and draws nothing. -/
theorem Shader_trace_no_geometry (fs : String → FileOutcome) (gl : DriverReplies)
    (infoLog0 : List Nat) (vertexPath fragmentPath : String) :
    uploadedSizes (Shader.Shader fs gl infoLog0 vertexPath fragmentPath).2 = []
      ∧ attributeLayouts (Shader.Shader fs gl infoLog0 vertexPath fragmentPath).2 = []
      ∧ drawCalls (Shader.Shader fs gl infoLog0 vertexPath fragmentPath).2 = [] := by
  rw [Shader_trace]
  rcases loadSources_events fs vertexPath fragmentPath with h | h <;> rw [h] <;>
    by_cases h1 : gl.vertexStatus = 0 <;> by_cases h2 : gl.fragmentStatus = 0 <;>
    by_cases h3 : gl.linkStatus = 0 <;>
    simp [h1, h2, h3, uploadedSizes, attributeLayouts, drawCalls]

/-- Every draw call of the frame loop is the one of line 231, and the loop uploads
no buffer and describes no attribute. -/
theorem frameLoop_geometry (w : World) (window : Nat) (ourShader : Shader) :
    ∀ (fuel k : Nat) (loop : List Event), frameLoop w window ourShader fuel k = some loop →
      (∀ d ∈ drawCalls loop, d = (0, 3)) ∧ uploadedSizes loop = []
        ∧ attributeLayouts loop = [] := by
  intro fuel
  induction fuel with
  | zero => intro k loop h; simp [frameLoop] at h
  | succ f ih =>
    intro k loop h
    simp only [frameLoop] at h
    by_cases hc : w.shouldClose k = true
    · simp only [hc, if_true, Option.some.injEq] at h
      subst h
      simp [drawCalls, uploadedSizes, attributeLayouts]
    · simp only [hc, Bool.false_eq_true, if_false] at h
      cases hrest : frameLoop w window ourShader f (k + 1) with
      | none => simp [hrest] at h
      | some rest =>
        simp only [hrest, Option.some.injEq] at h
        subst h
        obtain ⟨hd, hu, ha⟩ := ih (k + 1) rest hrest
        refine ⟨?_, ?_, ?_⟩
        · intro d hmem
          simp only [frame, Shader.Use, List.cons_append, List.nil_append, drawCalls,
            List.mem_cons] at hmem
          rcases hmem with hmem | hmem
          · exact hmem
          · exact hd d hmem
        · simpa [frame, Shader.Use, uploadedSizes] using hu
        · simpa [frame, Shader.Use, attributeLayouts] using ha

/-! ## The claims -/

/-- C1: whatever the file system and the driver answer, the constructor runs to
its last statement.  The build calls of its trace are always, in this order:
create and compile the vertex stage, create and compile the fragment stage,
create the program, attach both stages, link.  The trace always ends with the two
releases of line 138 and 139, and the member shaderProgram holds the handle
returned by the program-creation call of the trace. -/
theorem Shader_constructor_never_aborts (fs : String → FileOutcome) (gl : DriverReplies)
    (infoLog0 : List Nat) (vertexPath fragmentPath : String) :
    (Shader.Shader fs gl infoLog0 vertexPath fragmentPath).2.filter Event.isBuildStep
        = [Event.glCreateShader ShaderType.GL_VERTEX_SHADER gl.vertexShader,
           Event.glCompileShader gl.vertexShader,
           Event.glCreateShader ShaderType.GL_FRAGMENT_SHADER gl.fragmentShader,
           Event.glCompileShader gl.fragmentShader,
           Event.glCreateProgram gl.program,
           Event.glAttachShader gl.program gl.vertexShader,
           Event.glAttachShader gl.program gl.fragmentShader,
           Event.glLinkProgram gl.program]
      ∧ (∃ before, (Shader.Shader fs gl infoLog0 vertexPath fragmentPath).2
          = before ++ [Event.glDeleteShader gl.vertexShader,
                       Event.glDeleteShader gl.fragmentShader])
      ∧ Event.glCreateProgram (Shader.Shader fs gl infoLog0 vertexPath fragmentPath).1.shaderProgram
          ∈ (Shader.Shader fs gl infoLog0 vertexPath fragmentPath).2
      ∧ (Shader.Shader fs gl infoLog0 vertexPath fragmentPath).1.shaderProgram = gl.program := by
  refine ⟨?_, ⟨_, Shader_trace fs gl infoLog0 vertexPath fragmentPath⟩, ?_, rfl⟩
  · rw [Shader_trace]
    rcases loadSources_events fs vertexPath fragmentPath with h | h <;> rw [h] <;>
      by_cases hv : gl.vertexStatus = 0 <;> by_cases hf : gl.fragmentStatus = 0 <;>
      by_cases hl : gl.linkStatus = 0 <;> simp [hv, hf, hl, Event.isBuildStep]
  · rw [Shader_trace]
    simp [Shader.Shader]

/-- C2: when the vertex compile-status query stores zero, exactly one output
statement of the trace prints the VERTEX COMPILATION_FAILED header, and the
creation and compilation of the fragment stage and the link of the program all
come after that statement in the trace. -/
theorem vertex_failure_reported_once (fs : String → FileOutcome) (gl : DriverReplies)
    (infoLog0 : List Nat) (vertexPath fragmentPath : String) (hv : gl.vertexStatus = 0) :
    countMessage Message.vertexCompilationFailed
        (Shader.Shader fs gl infoLog0 vertexPath fragmentPath).2 = 1
      ∧ ∃ before text after,
          (Shader.Shader fs gl infoLog0 vertexPath fragmentPath).2
            = before ++ [Event.coutLog Message.vertexCompilationFailed text] ++ after
          ∧ countMessage Message.vertexCompilationFailed before = 0
          ∧ [Event.glCreateShader ShaderType.GL_FRAGMENT_SHADER gl.fragmentShader,
             Event.glShaderSource gl.fragmentShader 1
               (c_str (loadSources fs vertexPath fragmentPath).1.2) none,
             Event.glCompileShader gl.fragmentShader] <+: after
          ∧ Event.glLinkProgram gl.program ∈ after := by
  constructor
  · rw [Shader_trace]
    rcases loadSources_events fs vertexPath fragmentPath with h | h <;> rw [h] <;>
      by_cases hf : gl.fragmentStatus = 0 <;>
      by_cases hl : gl.linkStatus = 0 <;>
      simp [hv, hf, hl, countMessage, logsAfter]
  · refine ⟨(loadSources fs vertexPath fragmentPath).2
        ++ [Event.glCreateShader ShaderType.GL_VERTEX_SHADER gl.vertexShader,
            Event.glShaderSource gl.vertexShader 1
              (c_str (loadSources fs vertexPath fragmentPath).1.1) none,
            Event.glCompileShader gl.vertexShader,
            Event.glGetShaderiv gl.vertexShader StatusName.GL_COMPILE_STATUS gl.vertexStatus,
            Event.glGetShaderInfoLog gl.vertexShader 512],
      readCString (gl.vertexLog.take 511),
      [Event.glCreateShader ShaderType.GL_FRAGMENT_SHADER gl.fragmentShader,
        Event.glShaderSource gl.fragmentShader 1
          (c_str (loadSources fs vertexPath fragmentPath).1.2) none,
        Event.glCompileShader gl.fragmentShader]
        ++ ([Event.glGetShaderiv gl.fragmentShader StatusName.GL_COMPILE_STATUS
              gl.fragmentStatus]
        ++ (if gl.fragmentStatus = 0 then
              [Event.glGetShaderInfoLog gl.fragmentShader 512,
               Event.coutLog Message.fragmentCompilationFailed
                 (readCString (gl.fragmentLog.take 511))]
            else [])
        ++ [Event.glCreateProgram gl.program,
            Event.glAttachShader gl.program gl.vertexShader,
            Event.glAttachShader gl.program gl.fragmentShader,
            Event.glLinkProgram gl.program,
            Event.glGetProgramiv gl.program StatusName.GL_LINK_STATUS gl.linkStatus]
        ++ (if gl.linkStatus = 0 then
              [Event.glGetProgramInfoLog gl.program 512,
               Event.coutLog Message.programLinkingFailed (readCString (gl.programLog.take 511))]
            else [])
        ++ [Event.glDeleteShader gl.vertexShader, Event.glDeleteShader gl.fragmentShader]),
      ?_, ?_, ⟨_, rfl⟩, ?_⟩
    · rw [Shader_trace]
      simp [hv]
    · rcases loadSources_events fs vertexPath fragmentPath with h | h <;> rw [h] <;>
        simp [countMessage, logsAfter]
    · simp

theorem vertex_failure_reported_once_witness :
    driverVertexFails.vertexStatus = 0
      ∧ countMessage Message.vertexCompilationFailed
          (Shader.Shader bothFiles driverVertexFails [] "core.vs" "core.frag").2 = 1 :=
  ⟨rfl, (vertex_failure_reported_once bothFiles driverVertexFails [] "core.vs" "core.frag" rfl).1⟩

/-- C3: when both compile-status queries store a nonzero word and the link-status
query stores zero, exactly one output statement prints the PROGRAM LINKING_FAILED
header, none prints a COMPILATION_FAILED header, and apart from what the file
reading printed the link diagnostic is the only output. -/
theorem link_failure_reported_once (fs : String → FileOutcome) (gl : DriverReplies)
    (infoLog0 : List Nat) (vertexPath fragmentPath : String)
    (hv : gl.vertexStatus ≠ 0) (hf : gl.fragmentStatus ≠ 0) (hl : gl.linkStatus = 0) :
    countMessage Message.programLinkingFailed
        (Shader.Shader fs gl infoLog0 vertexPath fragmentPath).2 = 1
      ∧ countMessage Message.vertexCompilationFailed
          (Shader.Shader fs gl infoLog0 vertexPath fragmentPath).2 = 0
      ∧ countMessage Message.fragmentCompilationFailed
          (Shader.Shader fs gl infoLog0 vertexPath fragmentPath).2 = 0
      ∧ output (Shader.Shader fs gl infoLog0 vertexPath fragmentPath).2
          = (loadSources fs vertexPath fragmentPath).2
            ++ [Event.coutLog Message.programLinkingFailed
                  (readCString (gl.programLog.take 511))] := by
  rw [Shader_trace]
  rcases loadSources_events fs vertexPath fragmentPath with h | h <;> rw [h] <;>
    simp [hv, hf, hl, countMessage, logsAfter, output, Event.isOutput]

theorem link_failure_reported_once_witness :
    (driverLinkFails.vertexStatus ≠ 0 ∧ driverLinkFails.fragmentStatus ≠ 0
        ∧ driverLinkFails.linkStatus = 0)
      ∧ countMessage Message.programLinkingFailed
          (Shader.Shader bothFiles driverLinkFails [] "core.vs" "core.frag").2 = 1 :=
  ⟨⟨by decide, by decide, rfl⟩,
    (link_failure_reported_once bothFiles driverLinkFails [] "core.vs" "core.frag"
      (by decide) (by decide) rfl).1⟩

/-- C4, on the code: with the vertex shader file impossible to open (open sets
failbit, the exception mask of line 26 is badbit only) the constructor prints no
file-read diagnostic at all, whatever the driver answers.  It goes on with an
empty vertex source and runs the whole build. -/
theorem missing_vertex_file_is_not_reported (gl : DriverReplies) (infoLog0 : List Nat) :
    countMessage Message.fileNotRead
        (Shader.Shader vertexFileMissing gl infoLog0 "core.vs" "core.frag").2 = 0
      ∧ submittedSources (Shader.Shader vertexFileMissing gl infoLog0 "core.vs" "core.frag").2
          = [(gl.vertexShader, []), (gl.fragmentShader, [102, 114, 97, 103])]
      ∧ Event.glLinkProgram gl.program
          ∈ (Shader.Shader vertexFileMissing gl infoLog0 "core.vs" "core.frag").2 := by
  have hload : loadSources vertexFileMissing "core.vs" "core.frag"
      = (([], [102, 114, 97, 103]), []) := by decide
  rw [Shader_trace, hload]
  by_cases hv : gl.vertexStatus = 0 <;> by_cases hf : gl.fragmentStatus = 0 <;>
    by_cases hl : gl.linkStatus = 0 <;>
    simp [hv, hf, hl, countMessage, logsAfter, submittedSources, sourceText, c_str, readCString]

/-- C5: for every driver log, of any length and content, every log text the
constructor prints after the VERTEX, FRAGMENT or PROGRAM failure header is at most
511 characters long and is a prefix of the log the driver holds for that object;
and every info-log query of the trace passes the buffer size 512. -/
theorem printed_log_bounded (fs : String → FileOutcome) (gl : DriverReplies)
    (infoLog0 : List Nat) (vertexPath fragmentPath : String) :
    (∀ text ∈ logsAfter Message.vertexCompilationFailed
          (Shader.Shader fs gl infoLog0 vertexPath fragmentPath).2,
        text.length ≤ 511 ∧ text <+: gl.vertexLog)
      ∧ (∀ text ∈ logsAfter Message.fragmentCompilationFailed
          (Shader.Shader fs gl infoLog0 vertexPath fragmentPath).2,
        text.length ≤ 511 ∧ text <+: gl.fragmentLog)
      ∧ (∀ text ∈ logsAfter Message.programLinkingFailed
          (Shader.Shader fs gl infoLog0 vertexPath fragmentPath).2,
        text.length ≤ 511 ∧ text <+: gl.programLog)
      ∧ (∀ n ∈ requestedSizes (Shader.Shader fs gl infoLog0 vertexPath fragmentPath).2,
        n = 512) := by
  rw [Shader_trace]
  have hv := readCString_take_bounded gl.vertexLog
  have hf := readCString_take_bounded gl.fragmentLog
  have hp := readCString_take_bounded gl.programLog
  rcases loadSources_events fs vertexPath fragmentPath with h | h <;> rw [h] <;>
    by_cases h1 : gl.vertexStatus = 0 <;> by_cases h2 : gl.fragmentStatus = 0 <;>
    by_cases h3 : gl.linkStatus = 0 <;>
    simp [h1, h2, h3, logsAfter, requestedSizes, hv, hf, hp]

set_option maxRecDepth 100000 in
theorem printed_log_bounded_witness :
    List.replicate 511 65 ∈ logsAfter Message.vertexCompilationFailed
        (Shader.Shader bothFiles driverLongLog [] "core.vs" "core.frag").2
      ∧ (List.replicate 511 65).length ≤ 511
      ∧ List.replicate 511 65 <+: driverLongLog.vertexLog :=
  have hmem : List.replicate 511 65 ∈ logsAfter Message.vertexCompilationFailed
      (Shader.Shader bothFiles driverLongLog [] "core.vs" "core.frag").2 := by decide
  ⟨hmem, (printed_log_bounded bothFiles driverLongLog [] "core.vs" "core.frag").1 _ hmem⟩

/-- C6: whatever compilation and linking report, the release calls of the trace
are exactly two, the vertex stage handle and then the fragment stage handle; they
are the last two events of the trace, the link call and the link-status query come
before them, and no call releases a program. -/
theorem stages_released_once (fs : String → FileOutcome) (gl : DriverReplies)
    (infoLog0 : List Nat) (vertexPath fragmentPath : String) :
    (Shader.Shader fs gl infoLog0 vertexPath fragmentPath).2.filter Event.isRelease
        = [Event.glDeleteShader gl.vertexShader, Event.glDeleteShader gl.fragmentShader]
      ∧ (∃ before, (Shader.Shader fs gl infoLog0 vertexPath fragmentPath).2
            = before ++ [Event.glDeleteShader gl.vertexShader,
                         Event.glDeleteShader gl.fragmentShader]
          ∧ before.filter Event.isRelease = []
          ∧ Event.glCreateShader ShaderType.GL_VERTEX_SHADER gl.vertexShader ∈ before
          ∧ Event.glCreateShader ShaderType.GL_FRAGMENT_SHADER gl.fragmentShader ∈ before
          ∧ Event.glLinkProgram gl.program ∈ before
          ∧ Event.glGetProgramiv gl.program StatusName.GL_LINK_STATUS gl.linkStatus ∈ before)
      ∧ (∀ program, Event.glDeleteProgram program
          ∉ (Shader.Shader fs gl infoLog0 vertexPath fragmentPath).2) := by
  refine ⟨?_, ⟨_, Shader_trace fs gl infoLog0 vertexPath fragmentPath, ?_, ?_, ?_, ?_, ?_⟩, ?_⟩
  · rw [Shader_trace]
    rcases loadSources_events fs vertexPath fragmentPath with h | h <;> rw [h] <;>
      by_cases h1 : gl.vertexStatus = 0 <;> by_cases h2 : gl.fragmentStatus = 0 <;>
      by_cases h3 : gl.linkStatus = 0 <;> simp [h1, h2, h3, Event.isRelease]
  · rcases loadSources_events fs vertexPath fragmentPath with h | h <;> rw [h] <;>
      by_cases h1 : gl.vertexStatus = 0 <;> by_cases h2 : gl.fragmentStatus = 0 <;>
      by_cases h3 : gl.linkStatus = 0 <;> simp [h1, h2, h3, Event.isRelease]
  · simp
  · simp
  · simp
  · simp
  · intro program
    rw [Shader_trace]
    rcases loadSources_events fs vertexPath fragmentPath with h | h <;> rw [h] <;>
      by_cases h1 : gl.vertexStatus = 0 <;> by_cases h2 : gl.fragmentStatus = 0 <;>
      by_cases h3 : gl.linkStatus = 0 <;> simp [h1, h2, h3]

/-- C7: when both files are read and the three status queries store nonzero
words, the constructor prints nothing; Use then makes exactly one call,
glUseProgram on the handle the constructor stored in shaderProgram (the one the
program-creation call returned), and prints nothing either. -/
theorem success_is_silent (fs : String → FileOutcome) (gl : DriverReplies)
    (infoLog0 : List Nat) (vertexPath fragmentPath : String) (vsrc fsrc : List Nat)
    (hvfile : fs vertexPath = FileOutcome.readable vsrc)
    (hffile : fs fragmentPath = FileOutcome.readable fsrc)
    (hv : gl.vertexStatus ≠ 0) (hf : gl.fragmentStatus ≠ 0) (hl : gl.linkStatus ≠ 0) :
    output (Shader.Shader fs gl infoLog0 vertexPath fragmentPath).2 = []
      ∧ (Shader.Shader fs gl infoLog0 vertexPath fragmentPath).1.Use
          = [Event.glUseProgram (Shader.Shader fs gl infoLog0 vertexPath fragmentPath).1.shaderProgram]
      ∧ (Shader.Shader fs gl infoLog0 vertexPath fragmentPath).1.shaderProgram = gl.program
      ∧ output (Shader.Shader fs gl infoLog0 vertexPath fragmentPath).1.Use = [] := by
  have hload := loadSources_readable fs vertexPath fragmentPath vsrc fsrc hvfile hffile
  refine ⟨?_, rfl, rfl, ?_⟩
  · rw [Shader_trace, hload]
    simp [hv, hf, hl, output, Event.isOutput]
  · simp [Shader.Use, output, Event.isOutput]

theorem success_is_silent_witness :
    (bothFiles "core.vs" = FileOutcome.readable [118, 101, 114, 116]
        ∧ bothFiles "core.frag" = FileOutcome.readable [102, 114, 97, 103]
        ∧ driverAllGood.vertexStatus ≠ 0 ∧ driverAllGood.fragmentStatus ≠ 0
        ∧ driverAllGood.linkStatus ≠ 0)
      ∧ output (Shader.Shader bothFiles driverAllGood [] "core.vs" "core.frag").2 = [] :=
  ⟨⟨by decide, by decide, by decide, by decide, by decide⟩,
    (success_is_silent bothFiles driverAllGood [] "core.vs" "core.frag"
      [118, 101, 114, 116] [102, 114, 97, 103]
      (by decide) (by decide) (by decide) (by decide) (by decide)).1⟩

/-- C8: when window creation returns the null pointer, and when the window exists
but glewInit returns something other than GLEW_OK, main returns EXIT_FAILURE, which
is not zero, its whole output is one line, and its trace holds no shader-build call
and no draw call.  Otherwise, when the close flag is first seen set at the test
number n, main returns EXIT_SUCCESS, which is zero, after exactly n draw calls; and
as long as the flag is never set main does not return. -/
theorem main_exit_code (w : World) :
    (w.window = none → ∀ fuel, ∃ trace, main w fuel = some (EXIT_FAILURE, trace)
        ∧ EXIT_FAILURE ≠ 0
        ∧ output trace = [Event.coutLine Message.windowFailed]
        ∧ trace.filter Event.isShaderBuild = [] ∧ trace.filter Event.isDraw = [])
      ∧ (∀ window, w.window = some window → w.glewInitResult ≠ GLEW_OK →
          ∀ fuel, ∃ trace, main w fuel = some (EXIT_FAILURE, trace)
            ∧ EXIT_FAILURE ≠ 0
            ∧ output trace = [Event.coutLine Message.glewFailed]
            ∧ trace.filter Event.isShaderBuild = [] ∧ trace.filter Event.isDraw = [])
      ∧ (∀ window n, w.window = some window → w.glewInitResult = GLEW_OK →
          w.shouldClose n = true → (∀ k, k < n → w.shouldClose k = false) →
          ∀ fuel, n < fuel → ∃ trace, main w fuel = some (EXIT_SUCCESS, trace)
            ∧ EXIT_SUCCESS = 0
            ∧ (trace.filter Event.isDraw).length = n)
      ∧ (∀ window, w.window = some window → w.glewInitResult = GLEW_OK →
          (∀ k, w.shouldClose k = false) → ∀ fuel, main w fuel = none) := by
  refine ⟨?_, ?_, ?_, ?_⟩
  · intro hw fuel
    refine ⟨startup w ++ [Event.coutLine Message.windowFailed, Event.glfwTerminate],
      by simp only [main, hw], by decide, ?_, ?_, ?_⟩ <;>
      simp [startup, output, Event.isOutput, Event.isShaderBuild, Event.isDraw]
  · intro window hw hglew fuel
    have hg : GLEW_OK ≠ w.glewInitResult := fun h => hglew h.symm
    refine ⟨startup w ++ [Event.glfwMakeContextCurrent window, Event.glewInit w.glewInitResult,
        Event.coutLine Message.glewFailed],
      by simp only [main, hw, if_pos hg], by decide, ?_, ?_, ?_⟩ <;>
      simp [startup, output, Event.isOutput, Event.isShaderBuild, Event.isDraw]
  · intro window n hw hglew hclose hopen fuel hfuel
    have hg : ¬ (GLEW_OK ≠ w.glewInitResult) := fun h => h hglew.symm
    obtain ⟨loop, hloop, hdraw, _⟩ := frameLoop_closes w window
      (Shader.Shader w.fs w.gl w.infoLog0 "core.vs" "core.frag").1 n 0 fuel
      (by simpa using hclose) (by simpa using hopen) hfuel
    refine ⟨startup w ++ [Event.glfwMakeContextCurrent window, Event.glewInit w.glewInitResult,
          Event.glViewport 0 0 w.screenWidth w.screenHeight]
        ++ (Shader.Shader w.fs w.gl w.infoLog0 "core.vs" "core.frag").2 ++ setupGeometry w ++ loop
        ++ [Event.glDeleteVertexArrays 1 w.VAO, Event.glDeleteBuffers 1 w.VBO,
            Event.glfwTerminate],
      by simp only [main, hw, if_neg hg, hloop], rfl, ?_⟩
    rw [Shader_trace]
    rcases loadSources_events w.fs "core.vs" "core.frag" with h | h <;> rw [h] <;>
      by_cases h1 : w.gl.vertexStatus = 0 <;> by_cases h2 : w.gl.fragmentStatus = 0 <;>
      by_cases h3 : w.gl.linkStatus = 0 <;>
      simp [h1, h2, h3, startup, setupGeometry, Event.isDraw, hdraw]
  · intro window hw hglew hopen fuel
    simp [main, hw, hglew, frameLoop_never_closes w window _ hopen]

theorem main_exit_code_witness :
    (∃ trace, main worldNoWindow 0 = some (EXIT_FAILURE, trace)
        ∧ output trace = [Event.coutLine Message.windowFailed])
      ∧ (∃ trace, main worldNoGlew 0 = some (EXIT_FAILURE, trace)
        ∧ output trace = [Event.coutLine Message.glewFailed])
      ∧ (∃ trace, main worldRuns 3 = some (EXIT_SUCCESS, trace)
        ∧ (trace.filter Event.isDraw).length = 2) := by
  refine ⟨?_, ?_, ?_⟩
  · obtain ⟨trace, h1, _, h2, _⟩ := (main_exit_code worldNoWindow).1 rfl 0
    exact ⟨trace, h1, h2⟩
  · obtain ⟨trace, h1, _, h2, _⟩ := (main_exit_code worldNoGlew).2.1 7 rfl (by decide) 0
    exact ⟨trace, h1, h2⟩
  · obtain ⟨trace, h1, _, h2⟩ := (main_exit_code worldRuns).2.2.1 7 2 rfl rfl rfl
      (by decide) 3 (by decide)
    exact ⟨trace, h1, h2⟩

/-- C9: the log-printing output statements of the trace are, in order and with the
event right before each: after a vertex compile failure the VERTEX
COMPILATION_FAILED header with the text fetched by glGetShaderInfoLog on the vertex
shader, after a fragment compile failure the FRAGMENT COMPILATION_FAILED header with
the text fetched on the fragment shader, after a link failure the PROGRAM
LINKING_FAILED header with the text fetched by glGetProgramInfoLog on the program;
there are no others.  The three header literals spell the stage and the failure
kind, and a log that fits the buffer and holds no NUL is printed whole. -/
theorem diagnostics_name_their_stage (fs : String → FileOutcome) (gl : DriverReplies)
    (infoLog0 : List Nat) (vertexPath fragmentPath : String) :
    diagnosticsFrom none (Shader.Shader fs gl infoLog0 vertexPath fragmentPath).2
        = (if gl.vertexStatus = 0 then
            [(some (Event.glGetShaderInfoLog gl.vertexShader 512),
              Message.vertexCompilationFailed, readCString (gl.vertexLog.take 511))]
           else [])
          ++ (if gl.fragmentStatus = 0 then
            [(some (Event.glGetShaderInfoLog gl.fragmentShader 512),
              Message.fragmentCompilationFailed, readCString (gl.fragmentLog.take 511))]
           else [])
          ++ (if gl.linkStatus = 0 then
            [(some (Event.glGetProgramInfoLog gl.program 512),
              Message.programLinkingFailed, readCString (gl.programLog.take 511))]
           else [])
      ∧ Message.literal Message.vertexCompilationFailed
          = "ERROR::SHADER::" ++ "VERTEX" ++ "::" ++ "COMPILATION_FAILED" ++ "\n"
      ∧ Message.literal Message.fragmentCompilationFailed
          = "ERROR::SHADER::" ++ "FRAGMENT" ++ "::" ++ "COMPILATION_FAILED" ++ "\n"
      ∧ Message.literal Message.programLinkingFailed
          = "ERROR::SHADER::" ++ "PROGRAM" ++ "::" ++ "LINKING_FAILED" ++ "\n"
      ∧ (gl.vertexLog.length ≤ 511 → 0 ∉ gl.vertexLog →
          readCString (gl.vertexLog.take 511) = gl.vertexLog)
      ∧ (gl.fragmentLog.length ≤ 511 → 0 ∉ gl.fragmentLog →
          readCString (gl.fragmentLog.take 511) = gl.fragmentLog)
      ∧ (gl.programLog.length ≤ 511 → 0 ∉ gl.programLog →
          readCString (gl.programLog.take 511) = gl.programLog) := by
  refine ⟨?_, by decide, by decide, by decide, readCString_of_fits _, readCString_of_fits _,
    readCString_of_fits _⟩
  rw [Shader_trace]
  rcases loadSources_events fs vertexPath fragmentPath with h | h <;> rw [h] <;>
    by_cases h1 : gl.vertexStatus = 0 <;> by_cases h2 : gl.fragmentStatus = 0 <;>
    by_cases h3 : gl.linkStatus = 0 <;> simp [h1, h2, h3, diagnosticsFrom]

theorem diagnostics_name_their_stage_witness :
    diagnosticsFrom none (Shader.Shader bothFiles driverVertexFails [] "core.vs" "core.frag").2
      = [(some (Event.glGetShaderInfoLog 1 512), Message.vertexCompilationFailed, [98, 97, 100]),
         (some (Event.glGetProgramInfoLog 3 512), Message.programLinkingFailed, [110, 111])] := by
  have h := (diagnostics_name_their_stage bothFiles driverVertexFails [] "core.vs" "core.frag").1
  rw [h]
  decide

/-- C10: when both files are read, the constructor makes exactly two source
submissions, each with one string and a null length array: for the vertex shader
the vertex file content up to its first NUL, for the fragment shader the fragment
file content up to its first NUL.  A file without NUL is submitted whole, and of a
file with a NUL only what stands before the first one is submitted. -/
theorem submitted_source_stops_at_nul (fs : String → FileOutcome) (gl : DriverReplies)
    (infoLog0 : List Nat) (vertexPath fragmentPath : String) (vsrc fsrc : List Nat)
    (hvfile : fs vertexPath = FileOutcome.readable vsrc)
    (hffile : fs fragmentPath = FileOutcome.readable fsrc) :
    submittedSources (Shader.Shader fs gl infoLog0 vertexPath fragmentPath).2
        = [(gl.vertexShader, vsrc.takeWhile (fun c => c != 0)),
           (gl.fragmentShader, fsrc.takeWhile (fun c => c != 0))]
      ∧ Event.glShaderSource gl.vertexShader 1 (vsrc ++ [0]) none
          ∈ (Shader.Shader fs gl infoLog0 vertexPath fragmentPath).2
      ∧ Event.glShaderSource gl.fragmentShader 1 (fsrc ++ [0]) none
          ∈ (Shader.Shader fs gl infoLog0 vertexPath fragmentPath).2
      ∧ (0 ∉ vsrc → 0 ∉ fsrc →
          submittedSources (Shader.Shader fs gl infoLog0 vertexPath fragmentPath).2
            = [(gl.vertexShader, vsrc), (gl.fragmentShader, fsrc)])
      ∧ (∀ kept dropped, vsrc = kept ++ 0 :: dropped → 0 ∉ kept →
          (gl.vertexShader, kept)
            ∈ submittedSources (Shader.Shader fs gl infoLog0 vertexPath fragmentPath).2)
      ∧ (∀ kept dropped, fsrc = kept ++ 0 :: dropped → 0 ∉ kept →
          (gl.fragmentShader, kept)
            ∈ submittedSources (Shader.Shader fs gl infoLog0 vertexPath fragmentPath).2) := by
  have hload := loadSources_readable fs vertexPath fragmentPath vsrc fsrc hvfile hffile
  have hsub : submittedSources (Shader.Shader fs gl infoLog0 vertexPath fragmentPath).2
      = [(gl.vertexShader, readCString (vsrc ++ 0 :: [])),
         (gl.fragmentShader, readCString (fsrc ++ 0 :: []))] := by
    rw [Shader_trace, hload]
    by_cases h1 : gl.vertexStatus = 0 <;> by_cases h2 : gl.fragmentStatus = 0 <;>
      by_cases h3 : gl.linkStatus = 0 <;>
      simp [h1, h2, h3, submittedSources, sourceText, c_str]
  have hnn : ∀ l : List Nat, 0 ∉ l → ∀ c ∈ l, c ≠ 0 := fun l hl c hc h0 => hl (h0 ▸ hc)
  refine ⟨?_, ?_, ?_, ?_, ?_, ?_⟩
  · rw [hsub, readCString_nul_terminated, readCString_nul_terminated]
    rfl
  · rw [Shader_trace, hload]
    simp [c_str]
  · rw [Shader_trace, hload]
    simp [c_str]
  · intro hv hf
    rw [hsub, readCString_append_nul _ _ (hnn _ hv), readCString_append_nul _ _ (hnn _ hf)]
  · intro kept dropped hsplit hkept
    rw [hsub, hsplit, List.append_assoc, List.cons_append,
      readCString_append_nul _ _ (hnn _ hkept)]
    simp
  · intro kept dropped hsplit hkept
    rw [hsub, hsplit, List.append_assoc, List.cons_append,
      readCString_append_nul _ _ (hnn _ hkept)]
    simp

theorem submitted_source_stops_at_nul_witness :
    (bothFiles "core.vs" = FileOutcome.readable [118, 101, 114, 116]
        ∧ bothFiles "core.frag" = FileOutcome.readable [102, 114, 97, 103])
      ∧ submittedSources (Shader.Shader bothFiles driverAllGood [] "core.vs" "core.frag").2
          = [(1, [118, 101, 114, 116]), (2, [102, 114, 97, 103])] :=
  ⟨⟨by decide, by decide⟩,
    (submitted_source_stops_at_nul bothFiles driverAllGood [] "core.vs" "core.frag"
      [118, 101, 114, 116] [102, 114, 97, 103] (by decide) (by decide)).2.2.2.1
      (by decide) (by decide)⟩

/-- C11: the attribute layout set up in main stays inside the uploaded buffer.
With 4-byte floats the 18 floats of vertices make a data store of 72 bytes; both
attributes have 3 components and stride 24, position at offset 0 and colour at
offset 12.  Every draw call of a run of main draws vertices 0 to 2 with exactly
this store and layout.  For each such vertex i both reads are the 12 bytes from
24 * i + off on, all below 72; the two reads of a vertex share no byte; and the
reads of the draw, taken together, are the bytes 0 to 71, each exactly once. -/
theorem vertex_fetch_within_buffer (w : World) :
    (sizeofGLfloat = 4 ∧ vertices.length = 18
        ∧ uploadedSizes (setupGeometry w) = [72]
        ∧ attributeLayouts (setupGeometry w) = [(0, 3, 24, 0), (1, 3, 24, 12)])
      ∧ (∀ fuel code trace, main w fuel = some (code, trace) → ∀ d ∈ drawCalls trace,
          d = (0, 3) ∧ uploadedSizes trace = [72]
            ∧ attributeLayouts trace = [(0, 3, 24, 0), (1, 3, 24, 12)])
      ∧ (∀ i, i < 3 → ∀ off, off = 0 ∨ off = 12 →
          attributeRead 3 24 off i = List.range' (24 * i + off) 12
            ∧ ∀ b ∈ attributeRead 3 24 off i, b < 72)
      ∧ (∀ i, i < 3 → ∀ b ∈ attributeRead 3 24 0 i, b ∉ attributeRead 3 24 12 i)
      ∧ drawReads (attributeLayouts (setupGeometry w)) 0 3 = List.range 72
      ∧ (∀ b, b < 72 → (drawReads (attributeLayouts (setupGeometry w)) 0 3).count b = 1)
      ∧ (∀ b ∈ drawReads (attributeLayouts (setupGeometry w)) 0 3, b < 72) := by
  have hlay : attributeLayouts (setupGeometry w) = [(0, 3, 24, 0), (1, 3, 24, 12)] := rfl
  have hsize : uploadedSizes (setupGeometry w) = [72] := rfl
  have hreads : drawReads [(0, 3, 24, 0), (1, 3, 24, 12)] 0 3 = List.range 72 := by decide
  refine ⟨⟨rfl, rfl, hsize, hlay⟩, ?_, ?_, ?_, ?_, ?_, ?_⟩
  · intro fuel code trace hmain d hd
    unfold main at hmain
    cases hw : w.window with
    | none =>
      simp only [hw, Option.some.injEq, Prod.mk.injEq] at hmain
      obtain ⟨_, rfl⟩ := hmain
      simp [startup, drawCalls] at hd
    | some window =>
      simp only [hw] at hmain
      by_cases hg : GLEW_OK ≠ w.glewInitResult
      · simp only [if_pos hg, Option.some.injEq, Prod.mk.injEq] at hmain
        obtain ⟨_, rfl⟩ := hmain
        simp [startup, drawCalls] at hd
      · simp only [if_neg hg] at hmain
        cases hloop : frameLoop w window
            (Shader.Shader w.fs w.gl w.infoLog0 "core.vs" "core.frag").1 fuel 0 with
        | none => simp [hloop] at hmain
        | some loop =>
          simp only [hloop, Option.some.injEq, Prod.mk.injEq] at hmain
          obtain ⟨_, rfl⟩ := hmain
          obtain ⟨hld, hlu, hla⟩ := frameLoop_geometry w window _ fuel 0 loop hloop
          obtain ⟨hsu, hsa, hsd⟩ :=
            Shader_trace_no_geometry w.fs w.gl w.infoLog0 "core.vs" "core.frag"
          refine ⟨?_, ?_, ?_⟩
          · simp only [drawCalls_append, hsd, List.mem_append] at hd
            rcases hd with ((((hd | hd) | hd) | hd) | hd)
            · simp [startup, drawCalls] at hd
            · simp at hd
            · simp [setupGeometry, drawCalls] at hd
            · exact hld d hd
            · simp [drawCalls] at hd
          · simp only [uploadedSizes_append, hsu, hlu, hsize]
            simp [startup, uploadedSizes]
          · simp only [attributeLayouts_append, hsa, hla, hlay]
            simp [startup, attributeLayouts]
  · intro i hi off hoff
    interval_cases i <;> rcases hoff with rfl | rfl <;> decide
  · intro i hi
    interval_cases i <;> decide
  · rw [hlay, hreads]
  · rw [hlay, hreads]
    decide
  · rw [hlay, hreads]
    intro b hb
    exact List.mem_range.mp hb

set_option maxRecDepth 100000 in
theorem vertex_fetch_within_buffer_witness :
    main worldRuns 3 = some (EXIT_SUCCESS, worldRunsTrace)
      ∧ (0, 3) ∈ drawCalls worldRunsTrace
      ∧ uploadedSizes worldRunsTrace = [72]
      ∧ attributeLayouts worldRunsTrace = [(0, 3, 24, 0), (1, 3, 24, 12)]
      ∧ (∀ b ∈ attributeRead 3 24 12 2, b < 72) :=
  have hmain : main worldRuns 3 = some (EXIT_SUCCESS, worldRunsTrace) := by decide
  have hdraw : (0, 3) ∈ drawCalls worldRunsTrace := by decide
  have h := (vertex_fetch_within_buffer worldRuns).2.1 3 EXIT_SUCCESS worldRunsTrace hmain
    (0, 3) hdraw
  ⟨hmain, hdraw, h.2.1, h.2.2,
    ((vertex_fetch_within_buffer worldRuns).2.2.1 2 (by decide) 12 (Or.inr rfl)).2⟩

end BasicOpenGLShaders
